import Mathlib

/-!
Shallow embedding of `azul-css` (`src/azul-css/src/css_properties.rs`).

Modelling conventions:
* Rust `f32` values are modelled as exact rationals (`ℚ`); the structure of
  every computation (dispatch on metrics, the constants used, clamping,
  truncating casts) is translated faithfully, while IEEE rounding of the
  arithmetic itself is idealised away.
* Rust `isize` is modelled as `ℤ` and `u8` as `ℕ` (conversions below always
  produce values in `[0, 255]`); wrap-around/saturation of `isize` is ignored.
* `as isize` / `as u8` casts on floats saturate and truncate toward zero in
  Rust; they are modelled by `f32AsIsize` / `f32AsU8`.
* `Option<T>` becomes `Option`, vectors become `List`.
-/

namespace Azul

/-- Model of a Rust `as isize` cast applied to an `f32`: truncation toward
zero (saturation at the `isize` range is not modelled). -/
def f32AsIsize (q : ℚ) : ℤ :=
  if 0 ≤ q then ⌊q⌋ else ⌈q⌉

/-- Model of a Rust `as u8` cast applied to an `f32`: saturating truncation
toward zero into `[0, 255]`. -/
def f32AsU8 (q : ℚ) : ℕ :=
  if q ≤ 0 then 0 else if 255 ≤ q then 255 else ⌊q⌋.toNat

/-- `EM_HEIGHT`: hard-coded height of one em in pixels. -/
def EM_HEIGHT : ℚ := 16

/-- `PT_TO_PX = 96.0 / 72.0`. -/
def PT_TO_PX : ℚ := 96 / 72

/-- `FP_PRECISION_MULTIPLIER: f32 = 1000.0`. -/
def FP_PRECISION_MULTIPLIER : ℚ := 1000

/-- `FP_PRECISION_MULTIPLIER_CONST: isize = FP_PRECISION_MULTIPLIER as isize`. -/
def FP_PRECISION_MULTIPLIER_CONST : ℤ := 1000

/-- `FloatValue`: wrapper around an `f32` value internally casted to an
`isize` for hashability. -/
structure FloatValue where
  number : ℤ
deriving DecidableEq

/-- `FloatValue::const_new`: stores `value * FP_PRECISION_MULTIPLIER_CONST`. -/
def FloatValue.const_new (value : ℤ) : FloatValue :=
  ⟨value * FP_PRECISION_MULTIPLIER_CONST⟩

/-- `FloatValue::new`: stores `(value * FP_PRECISION_MULTIPLIER) as isize`. -/
def FloatValue.new (value : ℚ) : FloatValue :=
  ⟨f32AsIsize (value * FP_PRECISION_MULTIPLIER)⟩

/-- `FloatValue::get`: `self.number as f32 / FP_PRECISION_MULTIPLIER`. -/
def FloatValue.get (f : FloatValue) : ℚ :=
  (f.number : ℚ) / FP_PRECISION_MULTIPLIER

/-- `PercentageValue`: wrapper around `FloatValue` denoting a percentage. -/
structure PercentageValue where
  number : FloatValue
deriving DecidableEq

/-- `PercentageValue::const_new`. -/
def PercentageValue.const_new (value : ℤ) : PercentageValue :=
  ⟨FloatValue.const_new value⟩

/-- `PercentageValue::new`. -/
def PercentageValue.new (value : ℚ) : PercentageValue :=
  ⟨FloatValue.new value⟩

/-- `PercentageValue::get`. -/
def PercentageValue.get (p : PercentageValue) : ℚ :=
  p.number.get

/-- `SizeMetric`: metric associated with a number (px, pt, em, percent). -/
inductive SizeMetric where
  | Px
  | Pt
  | Em
  | Percent
deriving DecidableEq

/-- `PixelValue`: a `(metric, quantized number)` pair. -/
structure PixelValue where
  metric : SizeMetric
  number : FloatValue
deriving DecidableEq

/-- `PixelValue::const_from_metric`. -/
def PixelValue.const_from_metric (metric : SizeMetric) (value : ℤ) : PixelValue :=
  ⟨metric, FloatValue.const_new value⟩

/-- `PixelValue::const_px`. -/
def PixelValue.const_px (value : ℤ) : PixelValue :=
  PixelValue.const_from_metric SizeMetric.Px value

/-- `PixelValue::const_em`. -/
def PixelValue.const_em (value : ℤ) : PixelValue :=
  PixelValue.const_from_metric SizeMetric.Em value

/-- `PixelValue::const_pt`. -/
def PixelValue.const_pt (value : ℤ) : PixelValue :=
  PixelValue.const_from_metric SizeMetric.Pt value

/-- `PixelValue::const_percent`. -/
def PixelValue.const_percent (value : ℤ) : PixelValue :=
  PixelValue.const_from_metric SizeMetric.Percent value

/-- `PixelValue::from_metric`. -/
def PixelValue.from_metric (metric : SizeMetric) (value : ℚ) : PixelValue :=
  ⟨metric, FloatValue.new value⟩

/-- `PixelValue::px`. -/
def PixelValue.px (value : ℚ) : PixelValue :=
  PixelValue.from_metric SizeMetric.Px value

/-- `PixelValue::em`. -/
def PixelValue.em (value : ℚ) : PixelValue :=
  PixelValue.from_metric SizeMetric.Em value

/-- `PixelValue::pt`. -/
def PixelValue.pt (value : ℚ) : PixelValue :=
  PixelValue.from_metric SizeMetric.Pt value

/-- `PixelValue::percent`. -/
def PixelValue.percent (value : ℚ) : PixelValue :=
  PixelValue.from_metric SizeMetric.Percent value

/-- `PixelValue::to_pixels(percent_resolve)`: dispatch on the metric. -/
def PixelValue.to_pixels (pv : PixelValue) (percent_resolve : ℚ) : ℚ :=
  match pv.metric with
  | SizeMetric.Px => pv.number.get
  | SizeMetric.Pt => pv.number.get * PT_TO_PX
  | SizeMetric.Em => pv.number.get * EM_HEIGHT
  | SizeMetric.Percent => pv.number.get / 100 * percent_resolve

/-- `PixelValueNoPercent`: same as `PixelValue`, but (by naming convention
only) not supposed to carry a `%` metric. -/
structure PixelValueNoPercent where
  inner : PixelValue
deriving DecidableEq

/-- `PixelValueNoPercent::to_pixels()`: `self.inner.to_pixels(0.0)`. -/
def PixelValueNoPercent.to_pixels (pv : PixelValueNoPercent) : ℚ :=
  pv.inner.to_pixels 0

/-- `AngleMetric`: deg, rad, grad, turn, percent-of-circle. -/
inductive AngleMetric where
  | Degree
  | Radians
  | Grad
  | Turn
  | Percent
deriving DecidableEq

/-- `AngleValue`: a `(metric, quantized number)` pair. -/
structure AngleValue where
  metric : AngleMetric
  number : FloatValue
deriving DecidableEq

/-- `AngleValue::const_from_metric`. -/
def AngleValue.const_from_metric (metric : AngleMetric) (value : ℤ) : AngleValue :=
  ⟨metric, FloatValue.const_new value⟩

/-- `AngleValue::const_deg`. -/
def AngleValue.const_deg (value : ℤ) : AngleValue :=
  AngleValue.const_from_metric AngleMetric.Degree value

/-- `AngleValue::const_rad`. -/
def AngleValue.const_rad (value : ℤ) : AngleValue :=
  AngleValue.const_from_metric AngleMetric.Radians value

/-- `AngleValue::const_grad`. -/
def AngleValue.const_grad (value : ℤ) : AngleValue :=
  AngleValue.const_from_metric AngleMetric.Grad value

/-- `AngleValue::const_turn`. -/
def AngleValue.const_turn (value : ℤ) : AngleValue :=
  AngleValue.const_from_metric AngleMetric.Turn value

/-- `AngleValue::const_percent`. -/
def AngleValue.const_percent (value : ℤ) : AngleValue :=
  AngleValue.const_from_metric AngleMetric.Percent value

/-- `AngleValue::from_metric`. -/
def AngleValue.from_metric (metric : AngleMetric) (value : ℚ) : AngleValue :=
  ⟨metric, FloatValue.new value⟩

/-- The exact rational value of `std::f32::consts::PI`
(bit pattern `0x40490FDB`, i.e. `13176795 / 2^22`). -/
def f32PI : ℚ := 13176795 / 4194304

/-- `AngleValue::to_degrees()`, exactly as written in the source
(the `Radians` arm divides by `400.0`, the `Grad` arm divides by `2π`). -/
def AngleValue.to_degrees (a : AngleValue) : ℚ :=
  match a.metric with
  | AngleMetric.Degree => a.number.get
  | AngleMetric.Radians => a.number.get / 400 * 360
  | AngleMetric.Grad => a.number.get / (2 * f32PI) * 360
  | AngleMetric.Turn => a.number.get * 360
  | AngleMetric.Percent => a.number.get / 100 * 360

/-- `ColorU`: u8-based color, channels range over 0 to 255. -/
structure ColorU where
  r : ℕ
  g : ℕ
  b : ℕ
  a : ℕ
deriving DecidableEq

/-- `ColorU::ALPHA_OPAQUE = 255`. -/
def ColorU.ALPHA_OPAQUE : ℕ := 255

/-- `ColorU::ALPHA_TRANSPARENT = 0`. -/
def ColorU.ALPHA_TRANSPARENT : ℕ := 0

/-- `ColorU::BLACK`. -/
def ColorU.BLACK : ColorU := ⟨0, 0, 0, ColorU.ALPHA_OPAQUE⟩

/-- `ColorU::WHITE`. -/
def ColorU.WHITE : ColorU := ⟨255, 255, 255, ColorU.ALPHA_OPAQUE⟩

/-- `ColorU::TRANSPARENT`. -/
def ColorU.TRANSPARENT : ColorU := ⟨0, 0, 0, ColorU.ALPHA_TRANSPARENT⟩

/-- `ColorF`: f32-based color, intended range 0.0 to 1.0 (not enforced). -/
structure ColorF where
  r : ℚ
  g : ℚ
  b : ℚ
  a : ℚ
deriving DecidableEq

/-- `impl From<ColorU> for ColorF`: divides every channel by 255. -/
def ColorF.fromColorU (input : ColorU) : ColorF :=
  ⟨(input.r : ℚ) / 255, (input.g : ℚ) / 255, (input.b : ℚ) / 255, (input.a : ℚ) / 255⟩

/-- `impl From<ColorF> for ColorU`: `(channel.min(1.0) * 255.0) as u8`
per channel (the `as u8` cast saturates negative values to `0`). -/
def ColorU.fromColorF (input : ColorF) : ColorU :=
  ⟨f32AsU8 (min input.r 1 * 255),
   f32AsU8 (min input.g 1 * 255),
   f32AsU8 (min input.b 1 * 255),
   f32AsU8 (min input.a 1 * 255)⟩

/-- `LayoutPoint`: point coordinate (x, y) in layout space, `isize`-based. -/
structure LayoutPoint where
  x : ℤ
  y : ℤ
deriving DecidableEq

/-- `LayoutPoint::new`. -/
def LayoutPoint.new (x y : ℤ) : LayoutPoint := ⟨x, y⟩

/-- `LayoutPoint::zero`. -/
def LayoutPoint.zero : LayoutPoint := ⟨0, 0⟩

/-- `LayoutSize`: size (width, height) in layout space, `isize`-based. -/
structure LayoutSize where
  width : ℤ
  height : ℤ
deriving DecidableEq

/-- `LayoutSize::new`. -/
def LayoutSize.new (width height : ℤ) : LayoutSize := ⟨width, height⟩

/-- `LayoutSize::zero`. -/
def LayoutSize.zero : LayoutSize := ⟨0, 0⟩

/-- `LayoutRect`: rectangle (origin, size) in layout space. -/
structure LayoutRect where
  origin : LayoutPoint
  size : LayoutSize
deriving DecidableEq

/-- `LayoutRect::new`. -/
def LayoutRect.new (origin : LayoutPoint) (size : LayoutSize) : LayoutRect :=
  ⟨origin, size⟩

/-- `LayoutRect::max_x = origin.x + size.width`. -/
def LayoutRect.max_x (r : LayoutRect) : ℤ := r.origin.x + r.size.width

/-- `LayoutRect::min_x = origin.x`. -/
def LayoutRect.min_x (r : LayoutRect) : ℤ := r.origin.x

/-- `LayoutRect::max_y = origin.y + size.height`. -/
def LayoutRect.max_y (r : LayoutRect) : ℤ := r.origin.y + r.size.height

/-- `LayoutRect::min_y = origin.y`. -/
def LayoutRect.min_y (r : LayoutRect) : ℤ := r.origin.y

/-- `LayoutRect::contains(other)`: half-open test on both axes. -/
def LayoutRect.contains (r : LayoutRect) (other : LayoutPoint) : Bool :=
  decide (r.min_x ≤ other.x) && decide (other.x < r.max_x) &&
  decide (r.min_y ≤ other.y) && decide (other.y < r.max_y)

/-- `LayoutRect::hit_test(other)`: `Some` of the offsets from the left/top
edges when all four edge margins are strictly positive, else `None`. -/
def LayoutRect.hit_test (r : LayoutRect) (other : LayoutPoint) : Option LayoutPoint :=
  let dx_left_edge := other.x - r.min_x
  let dx_right_edge := r.max_x - other.x
  let dy_top_edge := other.y - r.min_y
  let dy_bottom_edge := r.max_y - other.y
  if dx_left_edge > 0 && dx_right_edge > 0 && dy_top_edge > 0 && dy_bottom_edge > 0 then
    some (LayoutPoint.new dx_left_edge dy_top_edge)
  else
    none

/-- `LayoutRect::contains_rect(b)`: `b` fully inside `a`, inclusive edges. -/
def LayoutRect.contains_rect (a : LayoutRect) (b : LayoutRect) : Bool :=
  decide (b.origin.x ≥ a.origin.x) &&
  decide (b.origin.y ≥ a.origin.y) &&
  decide (b.origin.x + b.size.width ≤ a.origin.x + a.size.width) &&
  decide (b.origin.y + b.size.height ≤ a.origin.y + a.size.height)

/-- Loop state of `LayoutRect::union`: the running
`(max_width, max_height, min_x, min_y)` variables. -/
structure UnionAcc where
  max_width : ℤ
  max_height : ℤ
  min_x : ℤ
  min_y : ℤ
deriving DecidableEq

/-- One iteration of the `while let` loop inside `LayoutRect::union`,
exactly in source order: the new extents are measured against the *current*
`min_x`/`min_y`, which are only shrunk afterwards. -/
def LayoutRect.unionStep (acc : UnionAcc) (r : LayoutRect) : UnionAcc :=
  let cur_lower_right_x := r.origin.x + r.size.width
  let cur_lower_right_y := r.origin.y + r.size.height
  { max_width := max acc.max_width (cur_lower_right_x - acc.min_x)
    max_height := max acc.max_height (cur_lower_right_y - acc.min_y)
    min_x := min acc.min_x r.origin.x
    min_y := min acc.min_y r.origin.y }

/-- `LayoutRect::union(rects)`: `None` on an empty iterator, otherwise folds
`unionStep` over the remaining rectangles starting from the first one. -/
def LayoutRect.union (rects : List LayoutRect) : Option LayoutRect :=
  match rects with
  | [] => none
  | first :: rest =>
    let acc := rest.foldl LayoutRect.unionStep
      ⟨first.size.width, first.size.height, first.origin.x, first.origin.y⟩
    some ⟨⟨acc.min_x, acc.min_y⟩, ⟨acc.max_width, acc.max_height⟩⟩

/-- `CombinedCssPropertyType`: shorthand property keys. -/
inductive CombinedCssPropertyType where
  | BorderRadius
  | Overflow
  | Margin
  | Border
  | BorderLeft
  | BorderRight
  | BorderTop
  | BorderBottom
  | Padding
  | BoxShadow
deriving DecidableEq

/-- `CssPropertyType`: closed enumeration of the 72 longhand property kinds,
in source declaration order. -/
inductive CssPropertyType where
  | TextColor
  | FontSize
  | FontFamily
  | TextAlign
  | LetterSpacing
  | LineHeight
  | WordSpacing
  | TabWidth
  | Cursor
  | Display
  | Float
  | BoxSizing
  | Width
  | Height
  | MinWidth
  | MinHeight
  | MaxWidth
  | MaxHeight
  | Position
  | Top
  | Right
  | Left
  | Bottom
  | FlexWrap
  | FlexDirection
  | FlexGrow
  | FlexShrink
  | JustifyContent
  | AlignItems
  | AlignContent
  | OverflowX
  | OverflowY
  | PaddingTop
  | PaddingLeft
  | PaddingRight
  | PaddingBottom
  | MarginTop
  | MarginLeft
  | MarginRight
  | MarginBottom
  | Background
  | BackgroundImage
  | BackgroundColor
  | BackgroundPosition
  | BackgroundSize
  | BackgroundRepeat
  | BorderTopLeftRadius
  | BorderTopRightRadius
  | BorderBottomLeftRadius
  | BorderBottomRightRadius
  | BorderTopColor
  | BorderRightColor
  | BorderLeftColor
  | BorderBottomColor
  | BorderTopStyle
  | BorderRightStyle
  | BorderLeftStyle
  | BorderBottomStyle
  | BorderTopWidth
  | BorderRightWidth
  | BorderLeftWidth
  | BorderBottomWidth
  | BoxShadowLeft
  | BoxShadowRight
  | BoxShadowTop
  | BoxShadowBottom
  | ScrollbarStyle
  | Opacity
  | Transform
  | PerspectiveOrigin
  | TransformOrigin
  | BackfaceVisibility
deriving DecidableEq, Fintype

/-- `COMBINED_CSS_PROPERTIES_KEY_MAP`: the 10 shorthand key pairs, in source
array order. -/
def COMBINED_CSS_PROPERTIES_KEY_MAP : List (CombinedCssPropertyType × String) := [
  (CombinedCssPropertyType.BorderRadius, "border-radius"),
  (CombinedCssPropertyType.Overflow, "overflow"),
  (CombinedCssPropertyType.Padding, "padding"),
  (CombinedCssPropertyType.Margin, "margin"),
  (CombinedCssPropertyType.Border, "border"),
  (CombinedCssPropertyType.BorderLeft, "border-left"),
  (CombinedCssPropertyType.BorderRight, "border-right"),
  (CombinedCssPropertyType.BorderTop, "border-top"),
  (CombinedCssPropertyType.BorderBottom, "border-bottom"),
  (CombinedCssPropertyType.BoxShadow, "box-shadow")]

/-- `CSS_PROPERTY_KEY_MAP`: the 72 longhand `(type, key)` pairs, in source
array order. -/
def CSS_PROPERTY_KEY_MAP : List (CssPropertyType × String) := [
  (CssPropertyType.Display, "display"),
  (CssPropertyType.Float, "float"),
  (CssPropertyType.BoxSizing, "box-sizing"),
  (CssPropertyType.TextColor, "color"),
  (CssPropertyType.FontSize, "font-size"),
  (CssPropertyType.FontFamily, "font-family"),
  (CssPropertyType.TextAlign, "text-align"),
  (CssPropertyType.LetterSpacing, "letter-spacing"),
  (CssPropertyType.LineHeight, "line-height"),
  (CssPropertyType.WordSpacing, "word-spacing"),
  (CssPropertyType.TabWidth, "tab-width"),
  (CssPropertyType.Cursor, "cursor"),
  (CssPropertyType.Width, "width"),
  (CssPropertyType.Height, "height"),
  (CssPropertyType.MinWidth, "min-width"),
  (CssPropertyType.MinHeight, "min-height"),
  (CssPropertyType.MaxWidth, "max-width"),
  (CssPropertyType.MaxHeight, "max-height"),
  (CssPropertyType.Position, "position"),
  (CssPropertyType.Top, "top"),
  (CssPropertyType.Right, "right"),
  (CssPropertyType.Left, "left"),
  (CssPropertyType.Bottom, "bottom"),
  (CssPropertyType.FlexWrap, "flex-wrap"),
  (CssPropertyType.FlexDirection, "flex-direction"),
  (CssPropertyType.FlexGrow, "flex-grow"),
  (CssPropertyType.FlexShrink, "flex-shrink"),
  (CssPropertyType.JustifyContent, "justify-content"),
  (CssPropertyType.AlignItems, "align-items"),
  (CssPropertyType.AlignContent, "align-content"),
  (CssPropertyType.OverflowX, "overflow-x"),
  (CssPropertyType.OverflowY, "overflow-y"),
  (CssPropertyType.PaddingTop, "padding-top"),
  (CssPropertyType.PaddingLeft, "padding-left"),
  (CssPropertyType.PaddingRight, "padding-right"),
  (CssPropertyType.PaddingBottom, "padding-bottom"),
  (CssPropertyType.MarginTop, "margin-top"),
  (CssPropertyType.MarginLeft, "margin-left"),
  (CssPropertyType.MarginRight, "margin-right"),
  (CssPropertyType.MarginBottom, "margin-bottom"),
  (CssPropertyType.Background, "background"),
  (CssPropertyType.BackgroundImage, "background-image"),
  (CssPropertyType.BackgroundColor, "background-color"),
  (CssPropertyType.BackgroundPosition, "background-position"),
  (CssPropertyType.BackgroundSize, "background-size"),
  (CssPropertyType.BackgroundRepeat, "background-repeat"),
  (CssPropertyType.BorderTopLeftRadius, "border-top-left-radius"),
  (CssPropertyType.BorderTopRightRadius, "border-top-right-radius"),
  (CssPropertyType.BorderBottomLeftRadius, "border-bottom-left-radius"),
  (CssPropertyType.BorderBottomRightRadius, "border-bottom-right-radius"),
  (CssPropertyType.BorderTopColor, "border-top-color"),
  (CssPropertyType.BorderRightColor, "border-right-color"),
  (CssPropertyType.BorderLeftColor, "border-left-color"),
  (CssPropertyType.BorderBottomColor, "border-bottom-color"),
  (CssPropertyType.BorderTopStyle, "border-top-style"),
  (CssPropertyType.BorderRightStyle, "border-right-style"),
  (CssPropertyType.BorderLeftStyle, "border-left-style"),
  (CssPropertyType.BorderBottomStyle, "border-bottom-style"),
  (CssPropertyType.BorderTopWidth, "border-top-width"),
  (CssPropertyType.BorderRightWidth, "border-right-width"),
  (CssPropertyType.BorderLeftWidth, "border-left-width"),
  (CssPropertyType.BorderBottomWidth, "border-bottom-width"),
  (CssPropertyType.BoxShadowTop, "box-shadow-top"),
  (CssPropertyType.BoxShadowRight, "box-shadow-right"),
  (CssPropertyType.BoxShadowLeft, "box-shadow-left"),
  (CssPropertyType.BoxShadowBottom, "box-shadow-bottom"),
  (CssPropertyType.ScrollbarStyle, "scrollbar-style"),
  (CssPropertyType.Opacity, "opacity"),
  (CssPropertyType.Transform, "transform"),
  (CssPropertyType.PerspectiveOrigin, "perspective-origin"),
  (CssPropertyType.TransformOrigin, "transform-origin"),
  (CssPropertyType.BackfaceVisibility, "backface-visibility")]

/-- Model of Rust `str::trim`: drops leading and trailing whitespace.
(`Char.isWhitespace` covers the ASCII whitespace present in CSS keys; the
full Unicode `White_Space` set of Rust is not needed for them.) -/
def rustTrim (s : String) : String :=
  String.mk (((s.toList.dropWhile Char.isWhitespace).reverse.dropWhile
    Char.isWhitespace).reverse)

/-- `CssKeyMap`: the two key tables built by `get_css_key_map`. The Rust
`BTreeMap`s are modelled as association lists; since all keys are distinct
(proved below), `BTreeMap::get` agrees with first-match list lookup, and the
`BTreeMap` iteration order only matters when a value occurs twice, which is
excluded by the exactly-one-key-per-type property proved below. -/
structure CssKeyMap where
  non_shorthands : List (String × CssPropertyType)
  shorthands : List (String × CombinedCssPropertyType)

/-- `get_css_key_map()`: builds both maps from the static key arrays. -/
def get_css_key_map : CssKeyMap :=
  { non_shorthands := CSS_PROPERTY_KEY_MAP.map (fun p => (p.2, p.1))
    shorthands := COMBINED_CSS_PROPERTIES_KEY_MAP.map (fun p => (p.2, p.1)) }

/-- `CssPropertyType::from_str(input, map)`: trims the input, then looks it
up in the non-shorthand key table. -/
def CssPropertyType.from_str (input : String) (map : CssKeyMap) : Option CssPropertyType :=
  (map.non_shorthands.find? (fun p => p.1 = rustTrim input)).map (fun p => p.2)

/-- `CssPropertyType::to_str(map)`: reverse linear scan over the table
(the source `unwrap`s; absence is modelled as `none`). -/
def CssPropertyType.to_str (t : CssPropertyType) (map : CssKeyMap) : Option String :=
  (map.non_shorthands.find? (fun p => p.2 = t)).map (fun p => p.1)

/-- `CombinedCssPropertyType::from_str(input, map)`. -/
def CombinedCssPropertyType.from_str (input : String) (map : CssKeyMap) :
    Option CombinedCssPropertyType :=
  (map.shorthands.find? (fun p => p.1 = rustTrim input)).map (fun p => p.2)

/-- `CssPropertyType::is_inheritable()`: explicit allow-list. -/
def CssPropertyType.is_inheritable (t : CssPropertyType) : Bool :=
  match t with
  | CssPropertyType.TextColor
  | CssPropertyType.FontFamily
  | CssPropertyType.FontSize
  | CssPropertyType.LineHeight
  | CssPropertyType.TextAlign => true
  | _ => false

/-- `CssPropertyType::can_trigger_relayout()`: `false` exactly on the match
arms listed in the source, `true` for the wildcard. -/
def CssPropertyType.can_trigger_relayout (t : CssPropertyType) : Bool :=
  match t with
  | CssPropertyType.TextColor
  | CssPropertyType.Cursor
  | CssPropertyType.Background
  | CssPropertyType.BackgroundPosition
  | CssPropertyType.BackgroundSize
  | CssPropertyType.BackgroundRepeat
  | CssPropertyType.BackgroundImage
  | CssPropertyType.BorderTopLeftRadius
  | CssPropertyType.BorderTopRightRadius
  | CssPropertyType.BorderBottomLeftRadius
  | CssPropertyType.BorderBottomRightRadius
  | CssPropertyType.BorderTopColor
  | CssPropertyType.BorderRightColor
  | CssPropertyType.BorderLeftColor
  | CssPropertyType.BorderBottomColor
  | CssPropertyType.BorderTopStyle
  | CssPropertyType.BorderRightStyle
  | CssPropertyType.BorderLeftStyle
  | CssPropertyType.BorderBottomStyle
  | CssPropertyType.BoxShadowLeft
  | CssPropertyType.BoxShadowRight
  | CssPropertyType.BoxShadowTop
  | CssPropertyType.BoxShadowBottom => false
  | _ => true

/-- `CssPropertyType::is_gpu_only_property()`. -/
def CssPropertyType.is_gpu_only_property (t : CssPropertyType) : Bool :=
  match t with
  | CssPropertyType.Opacity
  | CssPropertyType.Transform => true
  | _ => false

/-- `AzString`: owned string (from the crate root). -/
abbrev AzString := String

/-- `StringVec`: vector of strings (from the crate root). -/
abbrev StringVec := List AzString

/-- `BorderStyle`: style of a border. -/
inductive BorderStyle where
  | None
  | Solid
  | Double
  | Dotted
  | Dashed
  | Hidden
  | Groove
  | Ridge
  | Inset
  | Outset
deriving DecidableEq

/-- `BoxShadowClipMode`: inset or outset clipping of a box-shadow. -/
inductive BoxShadowClipMode where
  | Outset
  | Inset
deriving DecidableEq

/-- `ExtendMode`: whether a gradient repeats or clamps. -/
inductive ExtendMode where
  | Clamp
  | Repeat
deriving DecidableEq

/-- `Shape` of a radial gradient. -/
inductive Shape where
  | Ellipse
  | Circle
deriving DecidableEq

/-- `DirectionCorner`: corner/edge target of a gradient direction. -/
inductive DirectionCorner where
  | Right
  | Left
  | Top
  | Bottom
  | TopRight
  | TopLeft
  | BottomRight
  | BottomLeft
deriving DecidableEq

/-- `DirectionCorners`: a from/to pair of corners. -/
structure DirectionCorners where
  from_corner : DirectionCorner
  to_corner : DirectionCorner
deriving DecidableEq

/-- `Direction`: fixed gradient angle or corner-to-corner direction. -/
inductive Direction where
  | Angle (a : AngleValue)
  | FromTo (ft : DirectionCorners)
deriving DecidableEq

/-- `CssImageId`: owned image identifier string. -/
structure CssImageId where
  inner : AzString
deriving DecidableEq

/-- `LinearColorStop`: optional percentage offset plus color. -/
structure LinearColorStop where
  offset : Option PercentageValue
  color : ColorU
deriving DecidableEq

/-- `RadialColorStop`: optional angle offset plus color. -/
structure RadialColorStop where
  offset : Option AngleValue
  color : ColorU
deriving DecidableEq

/-- `LinearGradient`. -/
structure LinearGradient where
  direction : Direction
  extend_mode : ExtendMode
  stops : List LinearColorStop
deriving DecidableEq

/-- `ConicGradient`. -/
structure ConicGradient where
  extend_mode : ExtendMode
  center_x : PixelValue
  center_y : PixelValue
  angle : AngleValue
  stops : List RadialColorStop
deriving DecidableEq

/-- `RadialGradient`. -/
structure RadialGradient where
  shape : Shape
  extend_mode : ExtendMode
  stops : List LinearColorStop
deriving DecidableEq

/-- `StyleBackgroundContent`: one background layer. -/
inductive StyleBackgroundContent where
  | LinearGradient (g : LinearGradient)
  | RadialGradient (g : RadialGradient)
  | ConicGradient (g : ConicGradient)
  | Image (i : CssImageId)
  | Color (c : ColorU)
deriving DecidableEq

/-- `BackgroundPositionHorizontal`. -/
inductive BackgroundPositionHorizontal where
  | Left
  | Center
  | Right
  | Exact (v : PixelValue)
deriving DecidableEq

/-- `BackgroundPositionVertical`. -/
inductive BackgroundPositionVertical where
  | Top
  | Center
  | Bottom
  | Exact (v : PixelValue)
deriving DecidableEq

/-- `StyleBackgroundPosition`. -/
structure StyleBackgroundPosition where
  horizontal : BackgroundPositionHorizontal
  vertical : BackgroundPositionVertical
deriving DecidableEq

/-- `StyleBackgroundSize` (the `[PixelValue;2]` array is a pair here). -/
inductive StyleBackgroundSize where
  | ExactSize (s : PixelValue × PixelValue)
  | Contain
  | Cover
deriving DecidableEq

/-- `StyleBackgroundRepeat`. -/
inductive StyleBackgroundRepeat where
  | NoRepeat
  | Repeat
  | RepeatX
  | RepeatY
deriving DecidableEq

/-- `StyleTextColor`. -/
structure StyleTextColor where
  inner : ColorU
deriving DecidableEq

/-- `StyleFontSize`. -/
structure StyleFontSize where
  inner : PixelValue
deriving DecidableEq

/-- `StyleFontFamily`: fonts in order of precedence. -/
structure StyleFontFamily where
  fonts : StringVec
deriving DecidableEq

/-- `StyleTextAlignmentHorz`. -/
inductive StyleTextAlignmentHorz where
  | Left
  | Center
  | Right
deriving DecidableEq

/-- `StyleLetterSpacing`. -/
structure StyleLetterSpacing where
  inner : PixelValue
deriving DecidableEq

/-- `StyleLineHeight`. -/
structure StyleLineHeight where
  inner : PercentageValue
deriving DecidableEq

/-- `StyleWordSpacing`. -/
structure StyleWordSpacing where
  inner : PixelValue
deriving DecidableEq

/-- `StyleTabWidth`. -/
structure StyleTabWidth where
  inner : PercentageValue
deriving DecidableEq

/-- `StyleCursor`. -/
inductive StyleCursor where
  | Alias
  | AllScroll
  | Cell
  | ColResize
  | ContextMenu
  | Copy
  | Crosshair
  | Default
  | EResize
  | EwResize
  | Grab
  | Grabbing
  | Help
  | Move
  | NResize
  | NsResize
  | NeswResize
  | NwseResize
  | Pointer
  | Progress
  | RowResize
  | SResize
  | SeResize
  | Text
  | Unset
  | VerticalText
  | WResize
  | Wait
  | ZoomIn
  | ZoomOut
deriving DecidableEq

/-- `LayoutDisplay`. -/
inductive LayoutDisplay where
  | Flex
  | Block
  | InlineBlock
deriving DecidableEq

/-- `LayoutFloat`. -/
inductive LayoutFloat where
  | Left
  | Right
deriving DecidableEq

/-- `LayoutBoxSizing`. -/
inductive LayoutBoxSizing where
  | ContentBox
  | BorderBox
deriving DecidableEq

/-- `LayoutWidth`. -/
structure LayoutWidth where
  inner : PixelValue
deriving DecidableEq

/-- `LayoutMinWidth`. -/
structure LayoutMinWidth where
  inner : PixelValue
deriving DecidableEq

/-- `LayoutMaxWidth`. -/
structure LayoutMaxWidth where
  inner : PixelValue
deriving DecidableEq

/-- `LayoutHeight`. -/
structure LayoutHeight where
  inner : PixelValue
deriving DecidableEq

/-- `LayoutMinHeight`. -/
structure LayoutMinHeight where
  inner : PixelValue
deriving DecidableEq

/-- `LayoutMaxHeight`. -/
structure LayoutMaxHeight where
  inner : PixelValue
deriving DecidableEq

/-- `LayoutPosition`. -/
inductive LayoutPosition where
  | Static
  | Relative
  | Absolute
  | Fixed
deriving DecidableEq

/-- `LayoutTop`. -/
structure LayoutTop where
  inner : PixelValue
deriving DecidableEq

/-- `LayoutLeft`. -/
structure LayoutLeft where
  inner : PixelValue
deriving DecidableEq

/-- `LayoutRight`. -/
structure LayoutRight where
  inner : PixelValue
deriving DecidableEq

/-- `LayoutBottom`. -/
structure LayoutBottom where
  inner : PixelValue
deriving DecidableEq

/-- `LayoutWrap`. -/
inductive LayoutWrap where
  | Wrap
  | NoWrap
deriving DecidableEq

/-- `LayoutFlexDirection`. -/
inductive LayoutFlexDirection where
  | Row
  | RowReverse
  | Column
  | ColumnReverse
deriving DecidableEq

/-- `LayoutFlexGrow`. -/
structure LayoutFlexGrow where
  inner : FloatValue
deriving DecidableEq

/-- `LayoutFlexShrink`. -/
structure LayoutFlexShrink where
  inner : FloatValue
deriving DecidableEq

/-- `LayoutJustifyContent`. -/
inductive LayoutJustifyContent where
  | Start
  | End
  | Center
  | SpaceBetween
  | SpaceAround
  | SpaceEvenly
deriving DecidableEq

/-- `LayoutAlignItems`. -/
inductive LayoutAlignItems where
  | Stretch
  | Center
  | FlexStart
  | FlexEnd
deriving DecidableEq

/-- `LayoutAlignContent`. -/
inductive LayoutAlignContent where
  | Stretch
  | Center
  | Start
  | End
  | SpaceBetween
  | SpaceAround
deriving DecidableEq

/-- `Overflow`. -/
inductive Overflow where
  | Scroll
  | Auto
  | Hidden
  | Visible
deriving DecidableEq

/-- `LayoutPaddingTop`. -/
structure LayoutPaddingTop where
  inner : PixelValue
deriving DecidableEq

/-- `LayoutPaddingLeft`. -/
structure LayoutPaddingLeft where
  inner : PixelValue
deriving DecidableEq

/-- `LayoutPaddingRight`. -/
structure LayoutPaddingRight where
  inner : PixelValue
deriving DecidableEq

/-- `LayoutPaddingBottom`. -/
structure LayoutPaddingBottom where
  inner : PixelValue
deriving DecidableEq

/-- `LayoutMarginTop`. -/
structure LayoutMarginTop where
  inner : PixelValue
deriving DecidableEq

/-- `LayoutMarginLeft`. -/
structure LayoutMarginLeft where
  inner : PixelValue
deriving DecidableEq

/-- `LayoutMarginRight`. -/
structure LayoutMarginRight where
  inner : PixelValue
deriving DecidableEq

/-- `LayoutMarginBottom`. -/
structure LayoutMarginBottom where
  inner : PixelValue
deriving DecidableEq

/-- `StyleBorderTopLeftRadius`. -/
structure StyleBorderTopLeftRadius where
  inner : PixelValue
deriving DecidableEq

/-- `StyleBorderTopRightRadius`. -/
structure StyleBorderTopRightRadius where
  inner : PixelValue
deriving DecidableEq

/-- `StyleBorderBottomLeftRadius`. -/
structure StyleBorderBottomLeftRadius where
  inner : PixelValue
deriving DecidableEq

/-- `StyleBorderBottomRightRadius`. -/
structure StyleBorderBottomRightRadius where
  inner : PixelValue
deriving DecidableEq

/-- `StyleBorderTopColor`. -/
structure StyleBorderTopColor where
  inner : ColorU
deriving DecidableEq

/-- `StyleBorderRightColor`. -/
structure StyleBorderRightColor where
  inner : ColorU
deriving DecidableEq

/-- `StyleBorderLeftColor`. -/
structure StyleBorderLeftColor where
  inner : ColorU
deriving DecidableEq

/-- `StyleBorderBottomColor`. -/
structure StyleBorderBottomColor where
  inner : ColorU
deriving DecidableEq

/-- `StyleBorderTopStyle`. -/
structure StyleBorderTopStyle where
  inner : BorderStyle
deriving DecidableEq

/-- `StyleBorderRightStyle`. -/
structure StyleBorderRightStyle where
  inner : BorderStyle
deriving DecidableEq

/-- `StyleBorderLeftStyle`. -/
structure StyleBorderLeftStyle where
  inner : BorderStyle
deriving DecidableEq

/-- `StyleBorderBottomStyle`. -/
structure StyleBorderBottomStyle where
  inner : BorderStyle
deriving DecidableEq

/-- `StyleBorderTopWidth`. -/
structure StyleBorderTopWidth where
  inner : PixelValue
deriving DecidableEq

/-- `StyleBorderRightWidth`. -/
structure StyleBorderRightWidth where
  inner : PixelValue
deriving DecidableEq

/-- `StyleBorderLeftWidth`. -/
structure StyleBorderLeftWidth where
  inner : PixelValue
deriving DecidableEq

/-- `StyleBorderBottomWidth`. -/
structure StyleBorderBottomWidth where
  inner : PixelValue
deriving DecidableEq

/-- `StyleBoxShadow` (the `[PixelValueNoPercent;2]` offset array is a pair). -/
structure StyleBoxShadow where
  offset : PixelValueNoPercent × PixelValueNoPercent
  color : ColorU
  blur_radius : PixelValueNoPercent
  spread_radius : PixelValueNoPercent
  clip_mode : BoxShadowClipMode
deriving DecidableEq

/-- `ScrollbarInfo`. -/
structure ScrollbarInfo where
  width : LayoutWidth
  padding_left : LayoutPaddingLeft
  padding_right : LayoutPaddingRight
  track : StyleBackgroundContent
  thumb : StyleBackgroundContent
  button : StyleBackgroundContent
  corner : StyleBackgroundContent
  resizer : StyleBackgroundContent
deriving DecidableEq

/-- `ScrollbarStyle`. -/
structure ScrollbarStyle where
  horizontal : Option ScrollbarInfo
  vertical : Option ScrollbarInfo
deriving DecidableEq

/-- `StyleOpacity`. -/
structure StyleOpacity where
  inner : FloatValue
deriving DecidableEq

/-- `StyleTransformMatrix2D`. -/
structure StyleTransformMatrix2D where
  a : PixelValue
  b : PixelValue
  c : PixelValue
  d : PixelValue
  tx : PixelValue
  ty : PixelValue
deriving DecidableEq

/-- `StyleTransformMatrix3D`. -/
structure StyleTransformMatrix3D where
  m11 : PixelValue
  m12 : PixelValue
  m13 : PixelValue
  m14 : PixelValue
  m21 : PixelValue
  m22 : PixelValue
  m23 : PixelValue
  m24 : PixelValue
  m31 : PixelValue
  m32 : PixelValue
  m33 : PixelValue
  m34 : PixelValue
  m41 : PixelValue
  m42 : PixelValue
  m43 : PixelValue
  m44 : PixelValue
deriving DecidableEq

/-- `StyleTransformTranslate2D`. -/
structure StyleTransformTranslate2D where
  x : PixelValue
  y : PixelValue
deriving DecidableEq

/-- `StyleTransformTranslate3D`. -/
structure StyleTransformTranslate3D where
  x : PixelValue
  y : PixelValue
  z : PixelValue
deriving DecidableEq

/-- `StyleTransformRotate3D`. -/
structure StyleTransformRotate3D where
  x : PercentageValue
  y : PercentageValue
  z : PercentageValue
  angle : AngleValue
deriving DecidableEq

/-- `StyleTransformScale2D`. -/
structure StyleTransformScale2D where
  x : PercentageValue
  y : PercentageValue
deriving DecidableEq

/-- `StyleTransformScale3D`. -/
structure StyleTransformScale3D where
  x : PercentageValue
  y : PercentageValue
  z : PercentageValue
deriving DecidableEq

/-- `StyleTransformSkew2D`. -/
structure StyleTransformSkew2D where
  x : PercentageValue
  y : PercentageValue
deriving DecidableEq

/-- `StyleTransform`: one transform primitive, 21 variants as in the source. -/
inductive StyleTransform where
  | Matrix (m : StyleTransformMatrix2D)
  | Matrix3D (m : StyleTransformMatrix3D)
  | Translate (t : StyleTransformTranslate2D)
  | Translate3D (t : StyleTransformTranslate3D)
  | TranslateX (v : PixelValue)
  | TranslateY (v : PixelValue)
  | TranslateZ (v : PixelValue)
  | Rotate (a : AngleValue)
  | Rotate3D (r : StyleTransformRotate3D)
  | RotateX (a : AngleValue)
  | RotateY (a : AngleValue)
  | RotateZ (a : AngleValue)
  | Scale (s : StyleTransformScale2D)
  | Scale3D (s : StyleTransformScale3D)
  | ScaleX (p : PercentageValue)
  | ScaleY (p : PercentageValue)
  | ScaleZ (p : PercentageValue)
  | Skew (s : StyleTransformSkew2D)
  | SkewX (p : PercentageValue)
  | SkewY (p : PercentageValue)
  | Perspective (v : PixelValue)
deriving DecidableEq

/-- `StyleTransformOrigin`. -/
structure StyleTransformOrigin where
  x : PixelValue
  y : PixelValue
deriving DecidableEq

/-- `StylePerspectiveOrigin`. -/
structure StylePerspectiveOrigin where
  x : PixelValue
  y : PixelValue
deriving DecidableEq

/-- `StyleBackfaceVisibility`. -/
inductive StyleBackfaceVisibility where
  | Hidden
  | Visible
deriving DecidableEq

/-- Modelled from the spec: `CssPropertyValue<T>` lives in
`src/azul-css/src/css.rs`, which is not among the provided sources; per the
spec it is the tagged union over `{None, Auto, Initial, Inherit, Exact(T)}`. -/
inductive CssPropertyValue (α : Type) where
  | None : CssPropertyValue α
  | Auto : CssPropertyValue α
  | Initial : CssPropertyValue α
  | Inherit : CssPropertyValue α
  | Exact : α → CssPropertyValue α

/-- `CssProperty`: one parsed CSS key-value pair; one variant per property
kind except that `background`, `background-image` and `background-color` all
share the single `BackgroundContent` variant (as in the source). -/
inductive CssProperty where
  | TextColor (v : CssPropertyValue StyleTextColor)
  | FontSize (v : CssPropertyValue StyleFontSize)
  | FontFamily (v : CssPropertyValue StyleFontFamily)
  | TextAlign (v : CssPropertyValue StyleTextAlignmentHorz)
  | LetterSpacing (v : CssPropertyValue StyleLetterSpacing)
  | LineHeight (v : CssPropertyValue StyleLineHeight)
  | WordSpacing (v : CssPropertyValue StyleWordSpacing)
  | TabWidth (v : CssPropertyValue StyleTabWidth)
  | Cursor (v : CssPropertyValue StyleCursor)
  | Display (v : CssPropertyValue LayoutDisplay)
  | Float (v : CssPropertyValue LayoutFloat)
  | BoxSizing (v : CssPropertyValue LayoutBoxSizing)
  | Width (v : CssPropertyValue LayoutWidth)
  | Height (v : CssPropertyValue LayoutHeight)
  | MinWidth (v : CssPropertyValue LayoutMinWidth)
  | MinHeight (v : CssPropertyValue LayoutMinHeight)
  | MaxWidth (v : CssPropertyValue LayoutMaxWidth)
  | MaxHeight (v : CssPropertyValue LayoutMaxHeight)
  | Position (v : CssPropertyValue LayoutPosition)
  | Top (v : CssPropertyValue LayoutTop)
  | Right (v : CssPropertyValue LayoutRight)
  | Left (v : CssPropertyValue LayoutLeft)
  | Bottom (v : CssPropertyValue LayoutBottom)
  | FlexWrap (v : CssPropertyValue LayoutWrap)
  | FlexDirection (v : CssPropertyValue LayoutFlexDirection)
  | FlexGrow (v : CssPropertyValue LayoutFlexGrow)
  | FlexShrink (v : CssPropertyValue LayoutFlexShrink)
  | JustifyContent (v : CssPropertyValue LayoutJustifyContent)
  | AlignItems (v : CssPropertyValue LayoutAlignItems)
  | AlignContent (v : CssPropertyValue LayoutAlignContent)
  | BackgroundContent (v : CssPropertyValue (List StyleBackgroundContent))
  | BackgroundPosition (v : CssPropertyValue (List StyleBackgroundPosition))
  | BackgroundSize (v : CssPropertyValue (List StyleBackgroundSize))
  | BackgroundRepeat (v : CssPropertyValue (List StyleBackgroundRepeat))
  | OverflowX (v : CssPropertyValue Overflow)
  | OverflowY (v : CssPropertyValue Overflow)
  | PaddingTop (v : CssPropertyValue LayoutPaddingTop)
  | PaddingLeft (v : CssPropertyValue LayoutPaddingLeft)
  | PaddingRight (v : CssPropertyValue LayoutPaddingRight)
  | PaddingBottom (v : CssPropertyValue LayoutPaddingBottom)
  | MarginTop (v : CssPropertyValue LayoutMarginTop)
  | MarginLeft (v : CssPropertyValue LayoutMarginLeft)
  | MarginRight (v : CssPropertyValue LayoutMarginRight)
  | MarginBottom (v : CssPropertyValue LayoutMarginBottom)
  | BorderTopLeftRadius (v : CssPropertyValue StyleBorderTopLeftRadius)
  | BorderTopRightRadius (v : CssPropertyValue StyleBorderTopRightRadius)
  | BorderBottomLeftRadius (v : CssPropertyValue StyleBorderBottomLeftRadius)
  | BorderBottomRightRadius (v : CssPropertyValue StyleBorderBottomRightRadius)
  | BorderTopColor (v : CssPropertyValue StyleBorderTopColor)
  | BorderRightColor (v : CssPropertyValue StyleBorderRightColor)
  | BorderLeftColor (v : CssPropertyValue StyleBorderLeftColor)
  | BorderBottomColor (v : CssPropertyValue StyleBorderBottomColor)
  | BorderTopStyle (v : CssPropertyValue StyleBorderTopStyle)
  | BorderRightStyle (v : CssPropertyValue StyleBorderRightStyle)
  | BorderLeftStyle (v : CssPropertyValue StyleBorderLeftStyle)
  | BorderBottomStyle (v : CssPropertyValue StyleBorderBottomStyle)
  | BorderTopWidth (v : CssPropertyValue StyleBorderTopWidth)
  | BorderRightWidth (v : CssPropertyValue StyleBorderRightWidth)
  | BorderLeftWidth (v : CssPropertyValue StyleBorderLeftWidth)
  | BorderBottomWidth (v : CssPropertyValue StyleBorderBottomWidth)
  | BoxShadowLeft (v : CssPropertyValue StyleBoxShadow)
  | BoxShadowRight (v : CssPropertyValue StyleBoxShadow)
  | BoxShadowTop (v : CssPropertyValue StyleBoxShadow)
  | BoxShadowBottom (v : CssPropertyValue StyleBoxShadow)
  | ScrollbarStyle (v : CssPropertyValue ScrollbarStyle)
  | Opacity (v : CssPropertyValue StyleOpacity)
  | Transform (v : CssPropertyValue (List StyleTransform))
  | TransformOrigin (v : CssPropertyValue StyleTransformOrigin)
  | PerspectiveOrigin (v : CssPropertyValue StylePerspectiveOrigin)
  | BackfaceVisibility (v : CssPropertyValue StyleBackfaceVisibility)

/-- `CssProperty::get_type()`: exactly the source match, including the
`BackgroundContent(_) => CssPropertyType::BackgroundImage` arm that the
source itself marks `// TODO: wrong!`. -/
def CssProperty.get_type (p : CssProperty) : CssPropertyType :=
  match p with
  | CssProperty.TextColor _ => CssPropertyType.TextColor
  | CssProperty.FontSize _ => CssPropertyType.FontSize
  | CssProperty.FontFamily _ => CssPropertyType.FontFamily
  | CssProperty.TextAlign _ => CssPropertyType.TextAlign
  | CssProperty.LetterSpacing _ => CssPropertyType.LetterSpacing
  | CssProperty.LineHeight _ => CssPropertyType.LineHeight
  | CssProperty.WordSpacing _ => CssPropertyType.WordSpacing
  | CssProperty.TabWidth _ => CssPropertyType.TabWidth
  | CssProperty.Cursor _ => CssPropertyType.Cursor
  | CssProperty.Display _ => CssPropertyType.Display
  | CssProperty.Float _ => CssPropertyType.Float
  | CssProperty.BoxSizing _ => CssPropertyType.BoxSizing
  | CssProperty.Width _ => CssPropertyType.Width
  | CssProperty.Height _ => CssPropertyType.Height
  | CssProperty.MinWidth _ => CssPropertyType.MinWidth
  | CssProperty.MinHeight _ => CssPropertyType.MinHeight
  | CssProperty.MaxWidth _ => CssPropertyType.MaxWidth
  | CssProperty.MaxHeight _ => CssPropertyType.MaxHeight
  | CssProperty.Position _ => CssPropertyType.Position
  | CssProperty.Top _ => CssPropertyType.Top
  | CssProperty.Right _ => CssPropertyType.Right
  | CssProperty.Left _ => CssPropertyType.Left
  | CssProperty.Bottom _ => CssPropertyType.Bottom
  | CssProperty.FlexWrap _ => CssPropertyType.FlexWrap
  | CssProperty.FlexDirection _ => CssPropertyType.FlexDirection
  | CssProperty.FlexGrow _ => CssPropertyType.FlexGrow
  | CssProperty.FlexShrink _ => CssPropertyType.FlexShrink
  | CssProperty.JustifyContent _ => CssPropertyType.JustifyContent
  | CssProperty.AlignItems _ => CssPropertyType.AlignItems
  | CssProperty.AlignContent _ => CssPropertyType.AlignContent
  | CssProperty.BackgroundContent _ => CssPropertyType.BackgroundImage
  | CssProperty.BackgroundPosition _ => CssPropertyType.BackgroundPosition
  | CssProperty.BackgroundSize _ => CssPropertyType.BackgroundSize
  | CssProperty.BackgroundRepeat _ => CssPropertyType.BackgroundRepeat
  | CssProperty.OverflowX _ => CssPropertyType.OverflowX
  | CssProperty.OverflowY _ => CssPropertyType.OverflowY
  | CssProperty.PaddingTop _ => CssPropertyType.PaddingTop
  | CssProperty.PaddingLeft _ => CssPropertyType.PaddingLeft
  | CssProperty.PaddingRight _ => CssPropertyType.PaddingRight
  | CssProperty.PaddingBottom _ => CssPropertyType.PaddingBottom
  | CssProperty.MarginTop _ => CssPropertyType.MarginTop
  | CssProperty.MarginLeft _ => CssPropertyType.MarginLeft
  | CssProperty.MarginRight _ => CssPropertyType.MarginRight
  | CssProperty.MarginBottom _ => CssPropertyType.MarginBottom
  | CssProperty.BorderTopLeftRadius _ => CssPropertyType.BorderTopLeftRadius
  | CssProperty.BorderTopRightRadius _ => CssPropertyType.BorderTopRightRadius
  | CssProperty.BorderBottomLeftRadius _ => CssPropertyType.BorderBottomLeftRadius
  | CssProperty.BorderBottomRightRadius _ => CssPropertyType.BorderBottomRightRadius
  | CssProperty.BorderTopColor _ => CssPropertyType.BorderTopColor
  | CssProperty.BorderRightColor _ => CssPropertyType.BorderRightColor
  | CssProperty.BorderLeftColor _ => CssPropertyType.BorderLeftColor
  | CssProperty.BorderBottomColor _ => CssPropertyType.BorderBottomColor
  | CssProperty.BorderTopStyle _ => CssPropertyType.BorderTopStyle
  | CssProperty.BorderRightStyle _ => CssPropertyType.BorderRightStyle
  | CssProperty.BorderLeftStyle _ => CssPropertyType.BorderLeftStyle
  | CssProperty.BorderBottomStyle _ => CssPropertyType.BorderBottomStyle
  | CssProperty.BorderTopWidth _ => CssPropertyType.BorderTopWidth
  | CssProperty.BorderRightWidth _ => CssPropertyType.BorderRightWidth
  | CssProperty.BorderLeftWidth _ => CssPropertyType.BorderLeftWidth
  | CssProperty.BorderBottomWidth _ => CssPropertyType.BorderBottomWidth
  | CssProperty.BoxShadowLeft _ => CssPropertyType.BoxShadowLeft
  | CssProperty.BoxShadowRight _ => CssPropertyType.BoxShadowRight
  | CssProperty.BoxShadowTop _ => CssPropertyType.BoxShadowTop
  | CssProperty.BoxShadowBottom _ => CssPropertyType.BoxShadowBottom
  | CssProperty.ScrollbarStyle _ => CssPropertyType.ScrollbarStyle
  | CssProperty.Opacity _ => CssPropertyType.Opacity
  | CssProperty.Transform _ => CssPropertyType.Transform
  | CssProperty.PerspectiveOrigin _ => CssPropertyType.PerspectiveOrigin
  | CssProperty.TransformOrigin _ => CssPropertyType.TransformOrigin
  | CssProperty.BackfaceVisibility _ => CssPropertyType.BackfaceVisibility

/-- The `css_property_from_type!` macro: one dispatch table shared by
`none`/`auto`/`initial`/`inherit`, keyed on `CssPropertyType`. The chosen
`CssPropertyValue` tag is passed as a polymorphic argument, mirroring the
macro's `$content_type` parameter. Note that `Background`, `BackgroundImage`
and `BackgroundColor` all construct the `BackgroundContent` variant. -/
def cssPropertyFromType (prop_type : CssPropertyType)
    (content_type : (α : Type) → CssPropertyValue α) : CssProperty :=
  match prop_type with
  | CssPropertyType.TextColor => CssProperty.TextColor (content_type _)
  | CssPropertyType.FontSize => CssProperty.FontSize (content_type _)
  | CssPropertyType.FontFamily => CssProperty.FontFamily (content_type _)
  | CssPropertyType.TextAlign => CssProperty.TextAlign (content_type _)
  | CssPropertyType.LetterSpacing => CssProperty.LetterSpacing (content_type _)
  | CssPropertyType.LineHeight => CssProperty.LineHeight (content_type _)
  | CssPropertyType.WordSpacing => CssProperty.WordSpacing (content_type _)
  | CssPropertyType.TabWidth => CssProperty.TabWidth (content_type _)
  | CssPropertyType.Cursor => CssProperty.Cursor (content_type _)
  | CssPropertyType.Display => CssProperty.Display (content_type _)
  | CssPropertyType.Float => CssProperty.Float (content_type _)
  | CssPropertyType.BoxSizing => CssProperty.BoxSizing (content_type _)
  | CssPropertyType.Width => CssProperty.Width (content_type _)
  | CssPropertyType.Height => CssProperty.Height (content_type _)
  | CssPropertyType.MinWidth => CssProperty.MinWidth (content_type _)
  | CssPropertyType.MinHeight => CssProperty.MinHeight (content_type _)
  | CssPropertyType.MaxWidth => CssProperty.MaxWidth (content_type _)
  | CssPropertyType.MaxHeight => CssProperty.MaxHeight (content_type _)
  | CssPropertyType.Position => CssProperty.Position (content_type _)
  | CssPropertyType.Top => CssProperty.Top (content_type _)
  | CssPropertyType.Right => CssProperty.Right (content_type _)
  | CssPropertyType.Left => CssProperty.Left (content_type _)
  | CssPropertyType.Bottom => CssProperty.Bottom (content_type _)
  | CssPropertyType.FlexWrap => CssProperty.FlexWrap (content_type _)
  | CssPropertyType.FlexDirection => CssProperty.FlexDirection (content_type _)
  | CssPropertyType.FlexGrow => CssProperty.FlexGrow (content_type _)
  | CssPropertyType.FlexShrink => CssProperty.FlexShrink (content_type _)
  | CssPropertyType.JustifyContent => CssProperty.JustifyContent (content_type _)
  | CssPropertyType.AlignItems => CssProperty.AlignItems (content_type _)
  | CssPropertyType.AlignContent => CssProperty.AlignContent (content_type _)
  | CssPropertyType.OverflowX => CssProperty.OverflowX (content_type _)
  | CssPropertyType.OverflowY => CssProperty.OverflowY (content_type _)
  | CssPropertyType.PaddingTop => CssProperty.PaddingTop (content_type _)
  | CssPropertyType.PaddingLeft => CssProperty.PaddingLeft (content_type _)
  | CssPropertyType.PaddingRight => CssProperty.PaddingRight (content_type _)
  | CssPropertyType.PaddingBottom => CssProperty.PaddingBottom (content_type _)
  | CssPropertyType.MarginTop => CssProperty.MarginTop (content_type _)
  | CssPropertyType.MarginLeft => CssProperty.MarginLeft (content_type _)
  | CssPropertyType.MarginRight => CssProperty.MarginRight (content_type _)
  | CssPropertyType.MarginBottom => CssProperty.MarginBottom (content_type _)
  | CssPropertyType.Background => CssProperty.BackgroundContent (content_type _)
  | CssPropertyType.BackgroundImage => CssProperty.BackgroundContent (content_type _)
  | CssPropertyType.BackgroundColor => CssProperty.BackgroundContent (content_type _)
  | CssPropertyType.BackgroundPosition => CssProperty.BackgroundPosition (content_type _)
  | CssPropertyType.BackgroundSize => CssProperty.BackgroundSize (content_type _)
  | CssPropertyType.BackgroundRepeat => CssProperty.BackgroundRepeat (content_type _)
  | CssPropertyType.BorderTopLeftRadius => CssProperty.BorderTopLeftRadius (content_type _)
  | CssPropertyType.BorderTopRightRadius => CssProperty.BorderTopRightRadius (content_type _)
  | CssPropertyType.BorderBottomLeftRadius => CssProperty.BorderBottomLeftRadius (content_type _)
  | CssPropertyType.BorderBottomRightRadius => CssProperty.BorderBottomRightRadius (content_type _)
  | CssPropertyType.BorderTopColor => CssProperty.BorderTopColor (content_type _)
  | CssPropertyType.BorderRightColor => CssProperty.BorderRightColor (content_type _)
  | CssPropertyType.BorderLeftColor => CssProperty.BorderLeftColor (content_type _)
  | CssPropertyType.BorderBottomColor => CssProperty.BorderBottomColor (content_type _)
  | CssPropertyType.BorderTopStyle => CssProperty.BorderTopStyle (content_type _)
  | CssPropertyType.BorderRightStyle => CssProperty.BorderRightStyle (content_type _)
  | CssPropertyType.BorderLeftStyle => CssProperty.BorderLeftStyle (content_type _)
  | CssPropertyType.BorderBottomStyle => CssProperty.BorderBottomStyle (content_type _)
  | CssPropertyType.BorderTopWidth => CssProperty.BorderTopWidth (content_type _)
  | CssPropertyType.BorderRightWidth => CssProperty.BorderRightWidth (content_type _)
  | CssPropertyType.BorderLeftWidth => CssProperty.BorderLeftWidth (content_type _)
  | CssPropertyType.BorderBottomWidth => CssProperty.BorderBottomWidth (content_type _)
  | CssPropertyType.BoxShadowLeft => CssProperty.BoxShadowLeft (content_type _)
  | CssPropertyType.BoxShadowRight => CssProperty.BoxShadowRight (content_type _)
  | CssPropertyType.BoxShadowTop => CssProperty.BoxShadowTop (content_type _)
  | CssPropertyType.BoxShadowBottom => CssProperty.BoxShadowBottom (content_type _)
  | CssPropertyType.ScrollbarStyle => CssProperty.ScrollbarStyle (content_type _)
  | CssPropertyType.Opacity => CssProperty.Opacity (content_type _)
  | CssPropertyType.Transform => CssProperty.Transform (content_type _)
  | CssPropertyType.PerspectiveOrigin => CssProperty.PerspectiveOrigin (content_type _)
  | CssPropertyType.TransformOrigin => CssProperty.TransformOrigin (content_type _)
  | CssPropertyType.BackfaceVisibility => CssProperty.BackfaceVisibility (content_type _)

/-- `CssProperty::none(prop_type)`. -/
def CssProperty.none (prop_type : CssPropertyType) : CssProperty :=
  cssPropertyFromType prop_type (fun _ => CssPropertyValue.None)

/-- `CssProperty::auto(prop_type)`. -/
def CssProperty.auto (prop_type : CssPropertyType) : CssProperty :=
  cssPropertyFromType prop_type (fun _ => CssPropertyValue.Auto)

/-- `CssProperty::initial(prop_type)`. -/
def CssProperty.initial (prop_type : CssPropertyType) : CssProperty :=
  cssPropertyFromType prop_type (fun _ => CssPropertyValue.Initial)

/-- `CssProperty::inherit(prop_type)`. -/
def CssProperty.inherit (prop_type : CssPropertyType) : CssProperty :=
  cssPropertyFromType prop_type (fun _ => CssPropertyValue.Inherit)

/-! ## Helper lemmas -/

/-- Truncation toward zero differs from its argument by less than one. -/
theorem truncAbsLt (x : ℚ) : |(f32AsIsize x : ℚ) - x| < 1 := by
  unfold f32AsIsize
  by_cases h : 0 ≤ x
  · rw [if_pos h]
    have h1 := Int.floor_le x
    have h2 := Int.lt_floor_add_one x
    rw [abs_lt]
    constructor <;> linarith
  · rw [if_neg h]
    have h1 := Int.le_ceil x
    have h2 := Int.ceil_lt_add_one x
    rw [abs_lt]
    constructor <;> linarith

/-- The per-channel `ColorF → ColorU` computation `(q.min(1.0) * 255.0) as u8`
agrees with clamping to `[0, 1]`, scaling by 255 and truncating toward zero,
and never exceeds 255. -/
theorem f32AsU8Clamp (q : ℚ) :
    f32AsU8 (min q 1 * 255) = (⌊min (max q 0) 1 * 255⌋).toNat ∧
    f32AsU8 (min q 1 * 255) ≤ 255 := by
  unfold f32AsU8
  rcases le_or_lt q 0 with h0 | h0
  · have hm : min q 1 = q := min_eq_left (by linarith)
    have hM : max q 0 = 0 := max_eq_right h0
    rw [if_pos (by rw [hm]; nlinarith : min q 1 * 255 ≤ 0), hM]
    norm_num
  · rcases le_or_lt 1 q with h1 | h1
    · have hm : min q 1 = 1 := min_eq_right h1
      have hM : min (max q 0) 1 = 1 := by
        rw [max_eq_left (by linarith)]
        exact min_eq_right h1
      rw [hm, hM]
      norm_num
      rfl
    · have hm : min q 1 = q := min_eq_left (by linarith)
      have hM : min (max q 0) 1 = q := by
        rw [max_eq_left (by linarith)]
        exact min_eq_left (by linarith)
      rw [hm, hM]
      rw [if_neg (by nlinarith), if_neg (by nlinarith)]
      refine ⟨rfl, ?_⟩
      have : (⌊q * 255⌋ : ℤ) < 255 := by
        rw [Int.floor_lt]
        push_cast
        nlinarith
      omega

/-! ## Claim theorems -/

/-- Claim C1, counterexample: the claimed round-trip
`CssProperty::none(t).get_type() == t` fails at `t = Background`, because
`none(Background)` builds the shared `BackgroundContent` variant and
`get_type` reports that variant as `BackgroundImage`. -/
theorem C1_counterexample :
    (CssProperty.none CssPropertyType.Background).get_type ≠
      CssPropertyType.Background := by
  decide

/-- Claim C1 (amended): for every `CssPropertyType` `t`, each of the four
default-tag constructors `none`/`auto`/`initial`/`inherit` round-trips
through `get_type`, except that `Background` and `BackgroundColor` — which
are collapsed into the single `BackgroundContent` variant at construction —
come back as `BackgroundImage`. -/
theorem C1_default_tag_get_type_amended : ∀ t : CssPropertyType,
    (CssProperty.none t).get_type =
      (if t = CssPropertyType.Background ∨ t = CssPropertyType.BackgroundColor
        then CssPropertyType.BackgroundImage else t) ∧
    (CssProperty.auto t).get_type =
      (if t = CssPropertyType.Background ∨ t = CssPropertyType.BackgroundColor
        then CssPropertyType.BackgroundImage else t) ∧
    (CssProperty.initial t).get_type =
      (if t = CssPropertyType.Background ∨ t = CssPropertyType.BackgroundColor
        then CssPropertyType.BackgroundImage else t) ∧
    (CssProperty.inherit t).get_type =
      (if t = CssPropertyType.Background ∨ t = CssPropertyType.BackgroundColor
        then CssPropertyType.BackgroundImage else t) := by
  intro t
  cases t <;> exact ⟨rfl, rfl, rfl, rfl⟩

/-- Claim C2, counterexample: at `v = 0.0009`, `FloatValue::new` stores
`0` (truncation of `0.9`), not `round(0.9) = 1`, and the recovered value `0`
is `0.0009 > 0.0005` away from `v`, refuting both the `round(v*1000)`
storage contract and the `0.0005` precision bound. -/
theorem C2_counterexample :
    (FloatValue.new (9 / 10000)).number ≠ round ((9 / 10000 : ℚ) * 1000) ∧
    ¬ (|(FloatValue.new (9 / 10000)).get - 9 / 10000| ≤ 1 / 2000) := by
  constructor
  · norm_num [FloatValue.new, f32AsIsize, FP_PRECISION_MULTIPLIER, round_eq]
  · norm_num [FloatValue.new, FloatValue.get, f32AsIsize, FP_PRECISION_MULTIPLIER, abs]

/-- Claim C2 (amended): `FloatValue::new(v)` stores the truncation toward
zero of `v × 1000` in its integer field; for every `v`, `new(v).get()` is
within `0.001` (strictly) of `v`; and `new(v) == new(v)` holds for repeated
construction from the same input. -/
theorem C2_floatvalue_quantization_amended : ∀ v : ℚ,
    (FloatValue.new v).number = f32AsIsize (v * 1000) ∧
    |(FloatValue.new v).get - v| < 1 / 1000 ∧
    FloatValue.new v = FloatValue.new v := by
  intro v
  refine ⟨by unfold FloatValue.new FP_PRECISION_MULTIPLIER; rfl, ?_, rfl⟩
  have key := truncAbsLt (v * 1000)
  have hrw : (FloatValue.new v).get - v =
      ((f32AsIsize (v * 1000) : ℚ) - v * 1000) / 1000 := by
    unfold FloatValue.new FloatValue.get FP_PRECISION_MULTIPLIER
    ring
  rw [hrw, abs_div]
  rw [abs_of_pos (by norm_num : (0:ℚ) < 1000)]
  linarith [abs_nonneg ((f32AsIsize (v * 1000) : ℚ) - v * 1000)]

/-- Claim C3: evaluation of `AngleValue::to_degrees` at the failing inputs
`1rad` and `1grad`. The source has the `Radians` and `Grad` conversion
formulas swapped: `1rad` is converted by the 400-grad rule to `0.9°`
(instead of the claimed `360/(2π) ≈ 57.3°`), and `1grad` is converted by
the `2π`-radian rule (instead of the claimed `/400` rule). -/
theorem C3_to_degrees_swapped_eval :
    (AngleValue.const_rad 1).to_degrees = 1 / 400 * 360 ∧
    (AngleValue.const_grad 1).to_degrees = 1 / (2 * f32PI) * 360 ∧
    (AngleValue.const_rad 1).to_degrees ≠ 1 * (360 / (2 * f32PI)) ∧
    (AngleValue.const_grad 1).to_degrees ≠ 1 / 400 * 360 := by
  refine ⟨?_, ?_, ?_, ?_⟩ <;>
    norm_num [AngleValue.to_degrees, AngleValue.const_rad, AngleValue.const_grad,
      AngleValue.const_from_metric, FloatValue.const_new, FloatValue.get, f32PI,
      FP_PRECISION_MULTIPLIER, FP_PRECISION_MULTIPLIER_CONST]

/-- Claim C4: evaluation of `LayoutRect::union`. The empty case and the
spec's example agree with the claim, but on
`[(0,0,10,10), (-5,0,1,1)]` the fold measures the running width against the
stale minimum before shrinking it, returning the rectangle
`origin (-5,0), size (10,10)` — which does not even contain the first input
rectangle, so the result is not the minimal bounding rectangle. -/
theorem C4_union_eval :
    LayoutRect.union [] = none ∧
    LayoutRect.union [⟨⟨0,0⟩,⟨10,10⟩⟩, ⟨⟨5,5⟩,⟨10,10⟩⟩] =
      some ⟨⟨0,0⟩,⟨15,15⟩⟩ ∧
    LayoutRect.union [⟨⟨0,0⟩,⟨10,10⟩⟩, ⟨⟨-5,0⟩,⟨1,1⟩⟩] =
      some ⟨⟨-5,0⟩,⟨10,10⟩⟩ ∧
    LayoutRect.contains_rect ⟨⟨-5,0⟩,⟨10,10⟩⟩ ⟨⟨0,0⟩,⟨10,10⟩⟩ = false := by
  refine ⟨rfl, rfl, rfl, rfl⟩

/-- Claim C5, counterexample: `can_trigger_relayout` returns `true` for
`BackgroundColor`, although the claim lists `background-color` among the
purely-visual properties that must return `false`. -/
theorem C5_counterexample :
    CssPropertyType.can_trigger_relayout CssPropertyType.BackgroundColor = true := by
  decide

/-- Claim C5 (amended): `can_trigger_relayout` returns `false` exactly for
text color, cursor, the background-paint properties **except**
`background-color` (namely background, background-image, background-position,
background-size, background-repeat), border radius, border color, border
style and the box-shadow properties, and `true` for every other
`CssPropertyType` — including `BackgroundColor`. -/
theorem C5_can_trigger_relayout_amended : ∀ t : CssPropertyType,
    t.can_trigger_relayout = false ↔
      t ∈ [CssPropertyType.TextColor, CssPropertyType.Cursor, CssPropertyType.Background,
        CssPropertyType.BackgroundPosition, CssPropertyType.BackgroundSize,
        CssPropertyType.BackgroundRepeat, CssPropertyType.BackgroundImage,
        CssPropertyType.BorderTopLeftRadius, CssPropertyType.BorderTopRightRadius,
        CssPropertyType.BorderBottomLeftRadius, CssPropertyType.BorderBottomRightRadius,
        CssPropertyType.BorderTopColor, CssPropertyType.BorderRightColor,
        CssPropertyType.BorderLeftColor, CssPropertyType.BorderBottomColor,
        CssPropertyType.BorderTopStyle, CssPropertyType.BorderRightStyle,
        CssPropertyType.BorderLeftStyle, CssPropertyType.BorderBottomStyle,
        CssPropertyType.BoxShadowLeft, CssPropertyType.BoxShadowRight,
        CssPropertyType.BoxShadowTop, CssPropertyType.BoxShadowBottom] := by
  decide

/-- Claim C6: the longhand key registry is a bidirectional bijection:
`from_str` (after trimming) maps each of the 72 canonical keys to its type,
trims surrounding whitespace (`"  width  "` behaves like `"width"`),
returns nothing for an unrecognized key (`"bogus"`), round-trips
`from_str(to_str(t)) = Some t` for every type, exactly one key maps to each
type, and all 72 keys are pairwise distinct. -/
theorem C6_key_registry_bijection :
    (CSS_PROPERTY_KEY_MAP.all
      (fun p => CssPropertyType.from_str p.2 get_css_key_map == some p.1)) = true ∧
    CssPropertyType.from_str "width" get_css_key_map = some CssPropertyType.Width ∧
    CssPropertyType.from_str "  width  " get_css_key_map = some CssPropertyType.Width ∧
    CssPropertyType.from_str "bogus" get_css_key_map = none ∧
    (∀ t : CssPropertyType,
      (CssPropertyType.to_str t get_css_key_map).bind
        (fun s => CssPropertyType.from_str s get_css_key_map) = some t) ∧
    (∀ t : CssPropertyType,
      (CSS_PROPERTY_KEY_MAP.filter (fun p => p.1 = t)).length = 1) ∧
    (CSS_PROPERTY_KEY_MAP.map (fun p => p.2)).Nodup := by
  refine ⟨by decide, rfl, rfl, by decide, by decide, by decide, by decide⟩

/-- Claim C7: `PixelValue::to_pixels(r)` dispatches on the metric: `Px`
returns the stored quantized value, `Pt` scales by `96/72`, `Em` scales by
`16`, and `Percent` returns `value/100 × r`; it is total (no failure mode,
enforced by the closed metric enumeration). -/
theorem C7_to_pixels_dispatch : ∀ (n : FloatValue) (r : ℚ),
    PixelValue.to_pixels ⟨SizeMetric.Px, n⟩ r = n.get ∧
    PixelValue.to_pixels ⟨SizeMetric.Pt, n⟩ r = n.get * (96 / 72) ∧
    PixelValue.to_pixels ⟨SizeMetric.Em, n⟩ r = n.get * 16 ∧
    PixelValue.to_pixels ⟨SizeMetric.Percent, n⟩ r = n.get / 100 * r := by
  intro n r
  refine ⟨rfl, ?_, ?_, rfl⟩ <;> norm_num [PixelValue.to_pixels, PT_TO_PX, EM_HEIGHT]

/-- Claim C8: `contains` is the half-open test `min ≤ p < max` on both axes;
`hit_test` returns `Some` of the offsets from the left/top edges exactly when
the point is strictly inside all four edges, and `None` otherwise (in
particular on every edge); including the spec's concrete examples on the
rectangle at `(0,0)` with size `(10,10)`. -/
theorem C8_contains_hit_test :
    (∀ (rect : LayoutRect) (p : LayoutPoint),
      rect.contains p = true ↔
        (rect.min_x ≤ p.x ∧ p.x < rect.max_x ∧ rect.min_y ≤ p.y ∧ p.y < rect.max_y)) ∧
    (∀ (rect : LayoutRect) (p : LayoutPoint),
      rect.hit_test p =
        (if rect.min_x < p.x ∧ p.x < rect.max_x ∧ rect.min_y < p.y ∧ p.y < rect.max_y
          then some (LayoutPoint.new (p.x - rect.min_x) (p.y - rect.min_y))
          else none)) ∧
    (LayoutRect.new ⟨0,0⟩ ⟨10,10⟩).contains ⟨9,9⟩ = true ∧
    (LayoutRect.new ⟨0,0⟩ ⟨10,10⟩).contains ⟨10,10⟩ = false ∧
    (LayoutRect.new ⟨0,0⟩ ⟨10,10⟩).hit_test ⟨10,10⟩ = none ∧
    (LayoutRect.new ⟨0,0⟩ ⟨10,10⟩).hit_test ⟨5,5⟩ = some ⟨5,5⟩ := by
  refine ⟨?_, ?_, rfl, rfl, rfl, rfl⟩
  · intro rect p
    simp [LayoutRect.contains, and_assoc]
  · intro rect p
    simp only [LayoutRect.hit_test, LayoutPoint.new, gt_iff_lt, sub_pos]
    by_cases h1 : rect.min_x < p.x <;> by_cases h2 : p.x < rect.max_x <;>
      by_cases h3 : rect.min_y < p.y <;> by_cases h4 : p.y < rect.max_y <;>
      simp [h1, h2, h3, h4]

/-- Claim C9: color conversion is total and clamped: `ColorU → ColorF`
divides every `u8` channel by 255; `ColorF → ColorU` behaves exactly like
clamping each channel to `[0, 1]`, scaling by 255 and truncating toward
zero, never exceeding a `u8`; `ColorU::BLACK` round-trips, and a
channel of `2.0` converts to `255`. -/
theorem C9_color_conversion :
    (∀ c : ColorU, ColorF.fromColorU c =
      ⟨(c.r : ℚ) / 255, (c.g : ℚ) / 255, (c.b : ℚ) / 255, (c.a : ℚ) / 255⟩) ∧
    (∀ c : ColorF, ColorU.fromColorF c =
        ⟨(⌊min (max c.r 0) 1 * 255⌋).toNat, (⌊min (max c.g 0) 1 * 255⌋).toNat,
         (⌊min (max c.b 0) 1 * 255⌋).toNat, (⌊min (max c.a 0) 1 * 255⌋).toNat⟩ ∧
      (ColorU.fromColorF c).r ≤ 255 ∧ (ColorU.fromColorF c).g ≤ 255 ∧
      (ColorU.fromColorF c).b ≤ 255 ∧ (ColorU.fromColorF c).a ≤ 255) ∧
    ColorU.fromColorF (ColorF.fromColorU ColorU.BLACK) = ColorU.BLACK ∧
    (∀ gq bq aq : ℚ, (ColorU.fromColorF ⟨2, gq, bq, aq⟩).r = 255) := by
  refine ⟨fun c => rfl, ?_, ?_, ?_⟩
  · intro c
    obtain ⟨r, g, b, a⟩ := c
    refine ⟨?_, (f32AsU8Clamp r).2, (f32AsU8Clamp g).2, (f32AsU8Clamp b).2,
      (f32AsU8Clamp a).2⟩
    simp only [ColorU.fromColorF]
    rw [(f32AsU8Clamp r).1, (f32AsU8Clamp g).1, (f32AsU8Clamp b).1, (f32AsU8Clamp a).1]
  · norm_num [ColorU.fromColorF, ColorF.fromColorU, ColorU.BLACK,
      ColorU.ALPHA_OPAQUE, f32AsU8]
  · intro gq bq aq
    show f32AsU8 (min 2 1 * 255) = 255
    norm_num [f32AsU8]

/-- Claim C10: `PixelValueNoPercent::to_pixels()` resolves the inner value
with the percent reference fixed at `0.0`: a `Percent` metric (which the
type name does not actually exclude) yields `0`, and the metrics `Px`, `Pt`
and `Em` agree with `PixelValue::to_pixels` at every reference. -/
theorem C10_no_percent_to_pixels :
    (∀ pv : PixelValue, PixelValueNoPercent.to_pixels ⟨pv⟩ = pv.to_pixels 0) ∧
    (∀ n : FloatValue, PixelValueNoPercent.to_pixels ⟨⟨SizeMetric.Percent, n⟩⟩ = 0) ∧
    (∀ (n : FloatValue) (r : ℚ),
      PixelValueNoPercent.to_pixels ⟨⟨SizeMetric.Px, n⟩⟩ =
        PixelValue.to_pixels ⟨SizeMetric.Px, n⟩ r ∧
      PixelValueNoPercent.to_pixels ⟨⟨SizeMetric.Pt, n⟩⟩ =
        PixelValue.to_pixels ⟨SizeMetric.Pt, n⟩ r ∧
      PixelValueNoPercent.to_pixels ⟨⟨SizeMetric.Em, n⟩⟩ =
        PixelValue.to_pixels ⟨SizeMetric.Em, n⟩ r) := by
  refine ⟨fun pv => rfl, ?_, ?_⟩
  · intro n
    simp [PixelValueNoPercent.to_pixels, PixelValue.to_pixels]
  · intro n r
    exact ⟨rfl, rfl, rfl⟩

end Azul
